import Mathlib

/-!
Shallow embedding of `src/biz/collab/ops.rs` (AppFlowy-Cloud collab
access-control and folder-materialization layer).

The external collaborators (Postgres member store, access-control policy
store, document store, CRDT decoder) are modelled as explicit state plus
failure oracles; each operation of the source is translated into a pure
Lean function that returns the operation result, the post-state, and a
trace of the external calls it performed, so that ordering and rollback
contracts can be stated and proved.
-/

namespace AppFlowySpec

/-- Access levels of a collab member (`AFAccessLevel` in the source DTOs). -/
inductive AFAccessLevel where
  | ReadOnly
  | ReadAndComment
  | ReadAndWrite
  | FullAccess
deriving DecidableEq, Repr

/-- The error taxonomy of `AppError` as used by `ops.rs`: `InvalidRequest`
for validation and depth-limit failures, `RecordAlreadyExists` for a
duplicate create, `RecordNotFound` for absent reads, `Internal` for
transaction/store failures surfaced through `anyhow` contexts, and
`Unhandled` wrapping the CRDT decoder diagnostic. -/
inductive AppError where
  | InvalidRequest (msg : String)
  | RecordAlreadyExists (msg : String)
  | RecordNotFound (msg : String)
  | Internal (msg : String)
  | Unhandled (msg : String)
deriving DecidableEq, Repr

/-- `InsertCollabMemberParams`: input of `create_collab_member`. -/
structure InsertCollabMemberParams where
  uid : Int
  object_id : String
  access_level : AFAccessLevel
deriving DecidableEq, Repr

/-- `UpdateCollabMemberParams`: input of `upsert_collab_member`. -/
structure UpdateCollabMemberParams where
  uid : Int
  object_id : String
  access_level : AFAccessLevel
deriving DecidableEq, Repr

/-- `CollabMemberIdentify`: key identifying one membership record. -/
structure CollabMemberIdentify where
  uid : Int
  object_id : String
deriving DecidableEq, Repr

/-- `QueryCollabMembers`: input of `get_collab_member_list`. -/
structure QueryCollabMembers where
  object_id : String
deriving DecidableEq, Repr

/-- `AFCollabMember`: one membership row `(uid, oid, access_level)`. -/
structure AFCollabMember where
  uid : Int
  oid : String
  access_level : AFAccessLevel
deriving DecidableEq, Repr

/-- Combined external state: the relational membership table and the
access-control policy store (an association list keyed by (uid, oid)). -/
structure World where
  db : List AFCollabMember
  policy : List ((Int × String) × AFAccessLevel)
deriving DecidableEq, Repr

/-- Modelled from the spec: parameter validation (`params.validate()?` via
the `validator` crate) checks structural well-formedness — a non-empty
object identifier; the access-level enum is valid by construction here. -/
def InsertCollabMemberParams.validate (p : InsertCollabMemberParams) : Except AppError Unit :=
  if p.object_id.isEmpty then .error (.InvalidRequest ("object_id is empty")) else .ok ()

/-- Modelled from the spec: validation of `UpdateCollabMemberParams`. -/
def UpdateCollabMemberParams.validate (p : UpdateCollabMemberParams) : Except AppError Unit :=
  if p.object_id.isEmpty then .error (.InvalidRequest ("object_id is empty")) else .ok ()

/-- Modelled from the spec: validation of `CollabMemberIdentify`. -/
def CollabMemberIdentify.validate (p : CollabMemberIdentify) : Except AppError Unit :=
  if p.object_id.isEmpty then .error (.InvalidRequest ("object_id is empty")) else .ok ()

/-- Modelled from the spec: validation of `QueryCollabMembers`. -/
def QueryCollabMembers.validate (p : QueryCollabMembers) : Except AppError Unit :=
  if p.object_id.isEmpty then .error (.InvalidRequest ("object_id is empty")) else .ok ()

/-- Whether a row is the membership row of `(u, o)`. -/
def memberMatches (u : Int) (o : String) (r : AFCollabMember) : Bool :=
  r.uid == u && r.oid == o

/-- Modelled from the spec: `database::collab::is_collab_member_exists` —
the Relational Member Store existence check `existsMember(uid, objectId)`. -/
def is_collab_member_exists (u : Int) (o : String) (db : List AFCollabMember) : Bool :=
  db.any (memberMatches u o)

/-- Modelled from the spec: `database::collab::insert_collab_member` —
the Relational Member Store insert/update keeping at most one record per
`(uid, object_id)` (created by `create` when absent, mutated in place by
`upsert`). -/
def insert_collab_member (u : Int) (o : String) (l : AFAccessLevel)
    (db : List AFCollabMember) : List AFCollabMember :=
  ⟨u, o, l⟩ :: db.filter (fun r => !(memberMatches u o r))

/-- Modelled from the spec: `database::collab::delete_collab_member` —
the Relational Member Store delete `deleteMember(uid, objectId)`. -/
def delete_collab_member_row (u : Int) (o : String)
    (db : List AFCollabMember) : List AFCollabMember :=
  db.filter (fun r => !(memberMatches u o r))

/-- Modelled from the spec: `database::collab::select_collab_member` —
`selectMember(uid, objectId) -> MembershipRecord | NotFound`. -/
def select_collab_member (u : Int) (o : String)
    (db : List AFCollabMember) : Except AppError AFCollabMember :=
  match db.find? (memberMatches u o) with
  | some r => .ok r
  | none =>
    .error (.RecordNotFound ("collab member with uid " ++ toString u ++ " not found"))

/-- Modelled from the spec: `database::collab::select_collab_members` —
`selectMembers(objectId) -> seq<MembershipRecord>`. -/
def select_collab_members (o : String) (db : List AFCollabMember) : List AFCollabMember :=
  db.filter (fun r => r.oid == o)

/-- Modelled from the spec: the Policy Store `setAccessLevel(uid, objectId,
level)` applied to the policy association list. -/
def update_access_level_policy (u : Int) (o : String) (l : AFAccessLevel)
    (policy : List ((Int × String) × AFAccessLevel)) :
    List ((Int × String) × AFAccessLevel) :=
  ((u, o), l) :: policy.filter (fun e => !(e.1 == (u, o)))

/-- Modelled from the spec: the Policy Store `removeAccess(uid, objectId)`. -/
def remove_access_level (u : Int) (o : String)
    (policy : List ((Int × String) × AFAccessLevel)) :
    List ((Int × String) × AFAccessLevel) :=
  policy.filter (fun e => !(e.1 == (u, o)))

/-- Look up the policy entry of `(u, o)` in the policy store. -/
def policyLookup (policy : List ((Int × String) × AFAccessLevel))
    (u : Int) (o : String) : Option AFAccessLevel :=
  (policy.find? (fun e => e.1 == (u, o))).map (fun e => e.2)

/-- Failure oracle for the external calls of one member operation: whether
acquiring the transaction, the DB insert, the DB delete, the policy update,
the policy removal, and the commit succeed on this run. -/
structure Env where
  beginOk : Bool
  insertOk : Bool
  deleteOk : Bool
  policyOk : Bool
  removeOk : Bool
  commitOk : Bool
deriving DecidableEq, Repr

/-- One external call performed by a member operation, in program order. -/
inductive MemEvent where
  | txBegin
  | dbExists (uid : Int) (oid : String)
  | dbInsert (uid : Int) (oid : String) (level : AFAccessLevel)
  | dbDelete (uid : Int) (oid : String)
  | policyUpdate (uid : Int) (oid : String) (level : AFAccessLevel)
  | policyRemove (uid : Int) (oid : String)
  | txCommit
deriving DecidableEq, Repr

def MemEvent.isDbInsert : MemEvent → Bool
  | .dbInsert _ _ _ => true
  | _ => false

def MemEvent.isPolicyUpdate : MemEvent → Bool
  | .policyUpdate _ _ _ => true
  | _ => false

/-- Result of one member operation: the `Result` value, the committed
post-state of both stores, and the trace of external calls attempted. -/
structure MemResult where
  result : Except AppError Unit
  world : World
  trace : List MemEvent
deriving Repr

/-- `create_collab_member` (ops.rs lines 35-78): validate; begin a
transaction; fail `RecordAlreadyExists` if the member exists; insert the
row inside the transaction; update the policy store; commit. A failure of
any step returns the error with the transaction dropped (rolled back), so
the committed table changes only on a successful commit; the external
policy update, once performed, persists even if the commit then fails
(the documented residual inconsistency). -/
def create_collab_member (env : Env) (params : InsertCollabMemberParams)
    (w : World) : MemResult :=
  match params.validate with
  | .error e => ⟨.error e, w, []⟩
  | .ok _ =>
    if env.beginOk = false then
      ⟨.error (.Internal ("acquire transaction to insert collab member")), w, []⟩
    else if is_collab_member_exists params.uid params.object_id w.db then
      ⟨.error (.RecordAlreadyExists ("Collab member with uid " ++ toString params.uid ++
          " and object_id " ++ params.object_id ++ " already exists")), w,
        [.txBegin, .dbExists params.uid params.object_id]⟩
    else if env.insertOk = false then
      ⟨.error (.Internal ("insert collab member failed")), w,
        [.txBegin, .dbExists params.uid params.object_id,
         .dbInsert params.uid params.object_id params.access_level]⟩
    else if env.policyOk = false then
      ⟨.error (.Internal ("update access level policy failed")), w,
        [.txBegin, .dbExists params.uid params.object_id,
         .dbInsert params.uid params.object_id params.access_level,
         .policyUpdate params.uid params.object_id params.access_level]⟩
    else if env.commitOk = false then
      ⟨.error (.Internal ("fail to commit the transaction to insert collab member")),
        { db := w.db,
          policy := update_access_level_policy params.uid params.object_id
            params.access_level w.policy },
        [.txBegin, .dbExists params.uid params.object_id,
         .dbInsert params.uid params.object_id params.access_level,
         .policyUpdate params.uid params.object_id params.access_level, .txCommit]⟩
    else
      ⟨.ok (),
        { db := insert_collab_member params.uid params.object_id params.access_level w.db,
          policy := update_access_level_policy params.uid params.object_id
            params.access_level w.policy },
        [.txBegin, .dbExists params.uid params.object_id,
         .dbInsert params.uid params.object_id params.access_level,
         .policyUpdate params.uid params.object_id params.access_level, .txCommit]⟩

/-- `upsert_collab_member` (ops.rs lines 80-109): validate; begin a
transaction; update the policy store first; then insert/update the DB row
inside the transaction; commit. No existence check is performed. The
policy update happens outside the transaction rollback scope: once it has
succeeded, a later insert or commit failure leaves the new policy entry in
place while the committed membership table is unchanged. -/
def upsert_collab_member (env : Env) (params : UpdateCollabMemberParams)
    (w : World) : MemResult :=
  match params.validate with
  | .error e => ⟨.error e, w, []⟩
  | .ok _ =>
    if env.beginOk = false then
      ⟨.error (.Internal ("acquire transaction to upsert collab member")), w, []⟩
    else if env.policyOk = false then
      ⟨.error (.Internal ("update access level policy failed")), w,
        [.txBegin, .policyUpdate params.uid params.object_id params.access_level]⟩
    else if env.insertOk = false then
      ⟨.error (.Internal ("insert collab member failed")),
        { db := w.db,
          policy := update_access_level_policy params.uid params.object_id
            params.access_level w.policy },
        [.txBegin, .policyUpdate params.uid params.object_id params.access_level,
         .dbInsert params.uid params.object_id params.access_level]⟩
    else if env.commitOk = false then
      ⟨.error (.Internal ("fail to commit the transaction to upsert collab member")),
        { db := w.db,
          policy := update_access_level_policy params.uid params.object_id
            params.access_level w.policy },
        [.txBegin, .policyUpdate params.uid params.object_id params.access_level,
         .dbInsert params.uid params.object_id params.access_level, .txCommit]⟩
    else
      ⟨.ok (),
        { db := insert_collab_member params.uid params.object_id params.access_level w.db,
          policy := update_access_level_policy params.uid params.object_id
            params.access_level w.policy },
        [.txBegin, .policyUpdate params.uid params.object_id params.access_level,
         .dbInsert params.uid params.object_id params.access_level, .txCommit]⟩

/-- `get_collab_member` (ops.rs lines 111-119): validate, then a single
read with no transaction; `RecordNotFound` when absent. -/
def get_collab_member (params : CollabMemberIdentify) (w : World) :
    Except AppError AFCollabMember :=
  match params.validate with
  | .error e => .error e
  | .ok _ => select_collab_member params.uid params.object_id w.db

/-- `delete_collab_member` (ops.rs lines 121-148): validate; begin a
transaction; delete the DB row; remove the policy entry; commit. -/
def delete_collab_member (env : Env) (params : CollabMemberIdentify)
    (w : World) : MemResult :=
  match params.validate with
  | .error e => ⟨.error e, w, []⟩
  | .ok _ =>
    if env.beginOk = false then
      ⟨.error (.Internal ("acquire transaction to remove collab member")), w, []⟩
    else if env.deleteOk = false then
      ⟨.error (.Internal ("delete collab member failed")), w,
        [.txBegin, .dbDelete params.uid params.object_id]⟩
    else if env.removeOk = false then
      ⟨.error (.Internal ("remove access level failed")), w,
        [.txBegin, .dbDelete params.uid params.object_id,
         .policyRemove params.uid params.object_id]⟩
    else if env.commitOk = false then
      ⟨.error (.Internal ("fail to commit the transaction to remove collab member")),
        { db := w.db, policy := remove_access_level params.uid params.object_id w.policy },
        [.txBegin, .dbDelete params.uid params.object_id,
         .policyRemove params.uid params.object_id, .txCommit]⟩
    else
      ⟨.ok (),
        { db := delete_collab_member_row params.uid params.object_id w.db,
          policy := remove_access_level params.uid params.object_id w.policy },
        [.txBegin, .dbDelete params.uid params.object_id,
         .policyRemove params.uid params.object_id, .txCommit]⟩

/-- `get_collab_member_list` (ops.rs lines 150-157): validate, then a
single read of all members of the object, no transaction. -/
def get_collab_member_list (params : QueryCollabMembers) (w : World) :
    Except AppError (List AFCollabMember) :=
  match params.validate with
  | .error e => .error e
  | .ok _ => .ok (select_collab_members params.object_id w.db)

/-- `CollabType` (collab_entity): the document type tag; ops.rs uses
`CollabType::Folder`. -/
inductive CollabType where
  | Document
  | Folder
  | WorkspaceDatabase
deriving DecidableEq, Repr

/-- `GetCollabOrigin` (database crate): the requester identity of a
document-store fetch — a specific user or the server. -/
inductive GetCollabOrigin where
  | User (uid : Int)
  | Server
deriving DecidableEq, Repr

/-- `CollabOrigin` (collab crate): the origin context handed to the CRDT
decoder; ops.rs always passes `CollabOrigin::Server`. -/
inductive CollabOrigin where
  | Empty
  | Server
  | Client (uid : Int)
deriving DecidableEq, Repr

/-- The decoded folder tree: a rooted node graph with an id, a name and an
ordered sequence of children. -/
inductive Folder where
  | node (id : String) (name : String) (children : List Folder)

/-- `FolderView` is the depth-truncated projection of a `Folder`; it has
the same tree shape, so it is identified with `Folder` here. -/
abbrev FolderView := Folder

/-- Opaque output of the publish outline conversion. -/
structure PublishedView where
  id : String
deriving DecidableEq, Repr

/-- The maximum node depth of a folder tree: the root alone has depth 0,
and a child subtree of depth `k` contributes depth `k + 1`. -/
def maxDepth : Folder → Nat
  | .node _ _ [] => 0
  | .node i n (c :: cs) => max (maxDepth c + 1) (maxDepth (.node i n cs))

/-- Modelled from the spec: `collab_folder_to_folder_view` (in
`super::folder_view`, not part of the sources here) truncates the folder
tree to the requested depth — depth 0 keeps only the root with no
children, and at depth `d + 1` each child is truncated to depth `d`;
nodes beyond the ceiling are omitted entirely. -/
def collab_folder_to_folder_view (f : Folder) (depth : Nat) : FolderView :=
  match depth, f with
  | 0, .node i n _ => .node i n []
  | d + 1, .node i n cs => .node i n (cs.map (fun c => collab_folder_to_folder_view c d))

/-- External collaborators of the folder materializer and publish
resolver: the document store fetch (`get_encode_collab`, taking the
requester origin, workspace id, object id, collab type and the
require-latest flag), the CRDT decoder (`Folder::from_collab_doc_state`,
taking uid, origin, encoded bytes, workspace id and prior updates, and
failing with a diagnostic message), the namespace resolution, the
published-view-id query, and the publish outline conversion
(`collab_folder_to_published_outline`, in `super::publish_outline`, not
part of the sources here, kept opaque). -/
structure DocEnv where
  getEncodeCollab : GetCollabOrigin → String → String → CollabType → Bool →
    Except AppError (List Nat)
  fromCollabDocState : Int → CollabOrigin → List Nat → String → List (List Nat) →
    Except String Folder
  selectWorkspaceIdForPublishNamespace : String → Except AppError String
  selectPublishedViewIds : String → Except AppError (List String)
  collabFolderToPublishedOutline : Folder → List String → Except AppError PublishedView

/-- One external call performed by a folder/publish operation. -/
inductive DocEvent where
  | resolveNamespace (ns : String)
  | fetch (origin : GetCollabOrigin) (workspace : String) (oid : String) (ct : CollabType)
  | decode (uid : Int) (origin : CollabOrigin) (oid : String)
  | selectPublished (workspace : String)
  | outline
deriving DecidableEq, Repr

/-- `get_latest_collab_encoded` (ops.rs lines 201-221): one document-store
fetch with the requesting user as origin and `true` for require-latest. -/
def get_latest_collab_encoded (env : DocEnv) (uid : Int) (workspace_id : String)
    (oid : String) (collab_type : CollabType) :
    Except AppError (List Nat) × List DocEvent :=
  (env.getEncodeCollab (.User uid) workspace_id oid collab_type true,
   [.fetch (.User uid) workspace_id oid collab_type])

/-- `get_latest_collab_folder` (ops.rs lines 177-199): fetch the encoded
folder document of the workspace (object id = workspace id, type =
Folder), then decode it via `Folder::from_collab_doc_state` with the uid
and `CollabOrigin::Server`; a decode failure is mapped to
`AppError::Unhandled` carrying the decoder diagnostic. -/
def get_latest_collab_folder (env : DocEnv) (uid : Int) (workspace_id : String) :
    Except AppError Folder × List DocEvent :=
  match get_latest_collab_encoded env uid workspace_id workspace_id .Folder with
  | (.error e, tr) => (.error e, tr)
  | (.ok bytes, tr) =>
    match env.fromCollabDocState uid .Server bytes workspace_id [] with
    | .error e => (.error (.Unhandled e), tr ++ [.decode uid .Server workspace_id])
    | .ok folder => (.ok folder, tr ++ [.decode uid .Server workspace_id])

/-- `get_user_workspace_structure` (ops.rs lines 159-175): reject any
depth above the hard limit 10 with `InvalidRequest` before fetching
anything; otherwise materialize the folder and truncate it to the
requested depth. -/
def get_user_workspace_structure (env : DocEnv) (uid : Int) (workspace_id : String)
    (depth : Nat) : Except AppError FolderView × List DocEvent :=
  let depth_limit : Nat := 10
  if depth > depth_limit then
    (.error (.InvalidRequest ("Depth " ++ toString depth ++ " is too large (limit: " ++
      toString depth_limit ++ ")")), [])
  else
    match get_latest_collab_folder env uid workspace_id with
    | (.error e, tr) => (.error e, tr)
    | (.ok folder, tr) => (.ok (collab_folder_to_folder_view folder depth), tr)

/-- `get_published_view` (ops.rs lines 223-253): resolve the publish
namespace to a workspace id; fetch that workspace's folder document with
`GetCollabOrigin::Server`; decode it with uid 0 and
`CollabOrigin::Server`; fetch the published view ids; convert the folder
to the published outline. Any failing step propagates its error. -/
def get_published_view (env : DocEnv) (publish_namespace : String) :
    Except AppError PublishedView × List DocEvent :=
  match env.selectWorkspaceIdForPublishNamespace publish_namespace with
  | .error e => (.error e, [.resolveNamespace publish_namespace])
  | .ok workspace_id =>
    match env.getEncodeCollab .Server workspace_id workspace_id .Folder true with
    | .error e =>
      (.error e, [.resolveNamespace publish_namespace,
        .fetch .Server workspace_id workspace_id .Folder])
    | .ok bytes =>
      match env.fromCollabDocState 0 .Server bytes workspace_id [] with
      | .error e =>
        (.error (.Unhandled e), [.resolveNamespace publish_namespace,
          .fetch .Server workspace_id workspace_id .Folder,
          .decode 0 .Server workspace_id])
      | .ok folder =>
        match env.selectPublishedViewIds workspace_id with
        | .error e =>
          (.error e, [.resolveNamespace publish_namespace,
            .fetch .Server workspace_id workspace_id .Folder,
            .decode 0 .Server workspace_id, .selectPublished workspace_id])
        | .ok ids =>
          match env.collabFolderToPublishedOutline folder ids with
          | .error e =>
            (.error e, [.resolveNamespace publish_namespace,
              .fetch .Server workspace_id workspace_id .Folder,
              .decode 0 .Server workspace_id, .selectPublished workspace_id, .outline])
          | .ok pv =>
            (.ok pv, [.resolveNamespace publish_namespace,
              .fetch .Server workspace_id workspace_id .Folder,
              .decode 0 .Server workspace_id, .selectPublished workspace_id, .outline])

/-- `q`-events only happen after a `p`-event: every decomposition of the
trace at an event satisfying `q` has an event satisfying `p` strictly
before it. -/
def eventBefore (p q : MemEvent → Bool) (tr : List MemEvent) : Prop :=
  ∀ l1 e l2, tr = l1 ++ e :: l2 → q e = true → ∃ e2, e2 ∈ l1 ∧ p e2 = true

/- Concrete inputs used by the witness theorems. -/

def envAllOk : Env := ⟨true, true, true, true, true, true⟩

def envPolicyFail : Env := ⟨true, true, true, false, true, true⟩

def envInsertFail : Env := ⟨true, false, true, true, true, true⟩

def sampleInsertParams : InsertCollabMemberParams := ⟨1, "o1", .ReadOnly⟩

def sampleInsertParams2 : InsertCollabMemberParams := ⟨1, "o1", .FullAccess⟩

def sampleUpdateParams : UpdateCollabMemberParams := ⟨1, "o1", .ReadAndWrite⟩

def emptyInsertParams : InsertCollabMemberParams := ⟨1, "", .ReadOnly⟩

def emptyUpdateParams : UpdateCollabMemberParams := ⟨1, "", .ReadOnly⟩

def emptyIdentify : CollabMemberIdentify := ⟨1, ""⟩

def emptyQueryMembers : QueryCollabMembers := ⟨""⟩

def emptyWorld : World := ⟨[], []⟩

def sampleWorld1 : World := ⟨[⟨1, "o1", .ReadOnly⟩], [((1, "o1"), .ReadOnly)]⟩

def sampleFolder : Folder :=
  .node ("root") ("Root")
    [.node ("A") ("A") [], .node ("B") ("B") [.node ("C") ("C") []]]

def docEnvOk : DocEnv :=
  { getEncodeCollab := fun _ _ _ _ _ => .ok [1]
    fromCollabDocState := fun _ _ _ _ _ => .ok sampleFolder
    selectWorkspaceIdForPublishNamespace := fun _ => .ok ("w1")
    selectPublishedViewIds := fun _ => .ok [("C")]
    collabFolderToPublishedOutline := fun _ _ => .ok ⟨("root")⟩ }

def docEnvDecodeFail : DocEnv :=
  { docEnvOk with fromCollabDocState := fun _ _ _ _ _ => .error ("decode failed") }

/- Helper lemmas about `eventBefore`. -/

theorem eventBefore_nil (p q : MemEvent → Bool) : eventBefore p q [] := by
  intro l1 e l2 h _
  exact absurd h (by simp)

theorem eventBefore_cons_of_not_q (p q : MemEvent → Bool) (e : MemEvent)
    (tr : List MemEvent) (he : q e = false) (h : eventBefore p q tr) :
    eventBefore p q (e :: tr) := by
  intro l1 x l2 hx hq
  cases l1 with
  | nil =>
    simp only [List.nil_append, List.cons.injEq] at hx
    rw [← hx.1] at hq
    rw [he] at hq
    exact absurd hq (by simp)
  | cons a l1 =>
    simp only [List.cons_append, List.cons.injEq] at hx
    obtain ⟨e2, hm, hp⟩ := h l1 x l2 hx.2 hq
    exact ⟨e2, List.mem_cons_of_mem a hm, hp⟩

theorem eventBefore_cons_of_p (p q : MemEvent → Bool) (e : MemEvent)
    (tr : List MemEvent) (he : p e = true) (hq : q e = false) :
    eventBefore p q (e :: tr) := by
  intro l1 x l2 hx hqx
  cases l1 with
  | nil =>
    simp only [List.nil_append, List.cons.injEq] at hx
    rw [← hx.1] at hqx
    rw [hq] at hqx
    exact absurd hqx (by simp)
  | cons a l1 =>
    simp only [List.cons_append, List.cons.injEq] at hx
    exact ⟨e, by rw [hx.1]; exact List.mem_cons_self a l1, he⟩

/-- In every run of `create_collab_member`, any policy-store update in the
trace is preceded by a DB insert. -/
theorem create_trace_insert_first (env : Env) (p : InsertCollabMemberParams)
    (w : World) :
    eventBefore MemEvent.isDbInsert MemEvent.isPolicyUpdate
      (create_collab_member env p w).trace := by
  have hnil := eventBefore_nil MemEvent.isDbInsert MemEvent.isPolicyUpdate
  cases hv : p.object_id.isEmpty with
  | true =>
    simp only [create_collab_member, InsertCollabMemberParams.validate, hv, if_true]
    exact hnil
  | false =>
    simp only [create_collab_member, InsertCollabMemberParams.validate, hv,
      Bool.false_eq_true, if_false]
    split
    · exact hnil
    · split
      · exact eventBefore_cons_of_not_q _ _ _ _ rfl
          (eventBefore_cons_of_not_q _ _ _ _ rfl hnil)
      · split
        · exact eventBefore_cons_of_not_q _ _ _ _ rfl
            (eventBefore_cons_of_not_q _ _ _ _ rfl
              (eventBefore_cons_of_p _ _ _ _ rfl rfl))
        · split
          · exact eventBefore_cons_of_not_q _ _ _ _ rfl
              (eventBefore_cons_of_not_q _ _ _ _ rfl
                (eventBefore_cons_of_p _ _ _ _ rfl rfl))
          · split
            · exact eventBefore_cons_of_not_q _ _ _ _ rfl
                (eventBefore_cons_of_not_q _ _ _ _ rfl
                  (eventBefore_cons_of_p _ _ _ _ rfl rfl))
            · exact eventBefore_cons_of_not_q _ _ _ _ rfl
                (eventBefore_cons_of_not_q _ _ _ _ rfl
                  (eventBefore_cons_of_p _ _ _ _ rfl rfl))

/-- C1: in `create_collab_member` the DB insert of the membership record
happens before the external policy-store update (every policy update in
the call trace is preceded by a DB insert), and on every input on which
the policy update fails the operation returns an error and the world —
in particular the membership table — is left unchanged. -/
theorem create_member_insert_precedes_policy_and_rolls_back
    (envA envB : Env) (p : InsertCollabMemberParams) (w : World)
    (hpol : envB.policyOk = false) :
    eventBefore MemEvent.isDbInsert MemEvent.isPolicyUpdate
      (create_collab_member envA p w).trace ∧
    (∃ e, (create_collab_member envB p w).result = .error e) ∧
    (create_collab_member envB p w).world = w := by
  refine ⟨create_trace_insert_first envA p w, ?_⟩
  cases hv : p.object_id.isEmpty <;>
    cases hb : envB.beginOk <;>
      cases hex : is_collab_member_exists p.uid p.object_id w.db <;>
        cases hins : envB.insertOk <;>
          simp [create_collab_member, InsertCollabMemberParams.validate,
            hv, hb, hex, hins, hpol]

/-- Witness for C1 at concrete inputs. -/
theorem create_member_insert_precedes_policy_and_rolls_back_witness :
    eventBefore MemEvent.isDbInsert MemEvent.isPolicyUpdate
      (create_collab_member envAllOk sampleInsertParams emptyWorld).trace ∧
    (∃ e, (create_collab_member envPolicyFail sampleInsertParams emptyWorld).result
        = .error e) ∧
    (create_collab_member envPolicyFail sampleInsertParams emptyWorld).world
        = emptyWorld :=
  create_member_insert_precedes_policy_and_rolls_back envAllOk envPolicyFail
    sampleInsertParams emptyWorld rfl

/-- In every run of `upsert_collab_member`, any DB insert in the trace is
preceded by a policy-store update. -/
theorem upsert_trace_policy_first (env : Env) (p : UpdateCollabMemberParams)
    (w : World) :
    eventBefore MemEvent.isPolicyUpdate MemEvent.isDbInsert
      (upsert_collab_member env p w).trace := by
  have hnil := eventBefore_nil MemEvent.isPolicyUpdate MemEvent.isDbInsert
  cases hv : p.object_id.isEmpty with
  | true =>
    simp only [upsert_collab_member, UpdateCollabMemberParams.validate, hv, if_true]
    exact hnil
  | false =>
    simp only [upsert_collab_member, UpdateCollabMemberParams.validate, hv,
      Bool.false_eq_true, if_false]
    split
    · exact hnil
    · split
      · exact eventBefore_cons_of_not_q _ _ _ _ rfl
          (eventBefore_cons_of_p _ _ _ _ rfl rfl)
      · split
        · exact eventBefore_cons_of_not_q _ _ _ _ rfl
            (eventBefore_cons_of_p _ _ _ _ rfl rfl)
        · split
          · exact eventBefore_cons_of_not_q _ _ _ _ rfl
              (eventBefore_cons_of_p _ _ _ _ rfl rfl)
          · exact eventBefore_cons_of_not_q _ _ _ _ rfl
              (eventBefore_cons_of_p _ _ _ _ rfl rfl)

/-- C5: `upsert_collab_member` runs validate, begin, policy-store update,
DB insert, commit in that order: in every run any DB insert is preceded
by the policy update (the opposite of `create_collab_member`), and on a
fully successful run the trace is exactly begin, policy update, DB
insert, commit. -/
theorem upsert_member_policy_update_precedes_db_insert
    (envA envB : Env) (p : UpdateCollabMemberParams) (w : World)
    (hv : p.object_id.isEmpty = false) (hb : envB.beginOk = true)
    (hp : envB.policyOk = true) (hi : envB.insertOk = true)
    (hc : envB.commitOk = true) :
    eventBefore MemEvent.isPolicyUpdate MemEvent.isDbInsert
      (upsert_collab_member envA p w).trace ∧
    upsert_collab_member envB p w =
      ⟨.ok (),
       ⟨insert_collab_member p.uid p.object_id p.access_level w.db,
        update_access_level_policy p.uid p.object_id p.access_level w.policy⟩,
       [.txBegin, .policyUpdate p.uid p.object_id p.access_level,
        .dbInsert p.uid p.object_id p.access_level, .txCommit]⟩ := by
  refine ⟨upsert_trace_policy_first envA p w, ?_⟩
  simp [upsert_collab_member, UpdateCollabMemberParams.validate, hv, hb, hp, hi, hc]

/-- Witness for C5 at concrete inputs. -/
theorem upsert_member_policy_update_precedes_db_insert_witness :
    eventBefore MemEvent.isPolicyUpdate MemEvent.isDbInsert
      (upsert_collab_member envAllOk sampleUpdateParams emptyWorld).trace ∧
    upsert_collab_member envAllOk sampleUpdateParams emptyWorld =
      ⟨.ok (),
       ⟨insert_collab_member sampleUpdateParams.uid sampleUpdateParams.object_id
          sampleUpdateParams.access_level emptyWorld.db,
        update_access_level_policy sampleUpdateParams.uid sampleUpdateParams.object_id
          sampleUpdateParams.access_level emptyWorld.policy⟩,
       [.txBegin,
        .policyUpdate sampleUpdateParams.uid sampleUpdateParams.object_id
          sampleUpdateParams.access_level,
        .dbInsert sampleUpdateParams.uid sampleUpdateParams.object_id
          sampleUpdateParams.access_level, .txCommit]⟩ :=
  upsert_member_policy_update_precedes_db_insert envAllOk envAllOk
    sampleUpdateParams emptyWorld rfl rfl rfl rfl rfl

/-- A successful `create_collab_member` implies: the params were valid,
the member was absent, and the committed world is the insert plus the
policy update. -/
theorem create_ok_inv (env : Env) (p : InsertCollabMemberParams) (w : World)
    (h : (create_collab_member env p w).result = .ok ()) :
    p.object_id.isEmpty = false ∧
    is_collab_member_exists p.uid p.object_id w.db = false ∧
    (create_collab_member env p w).world =
      ⟨insert_collab_member p.uid p.object_id p.access_level w.db,
       update_access_level_policy p.uid p.object_id p.access_level w.policy⟩ := by
  cases hv : p.object_id.isEmpty <;> cases hb : env.beginOk <;>
    cases hex : is_collab_member_exists p.uid p.object_id w.db <;>
      cases hins : env.insertOk <;> cases hpol : env.policyOk <;>
        cases hcom : env.commitOk <;>
          simp [create_collab_member, InsertCollabMemberParams.validate,
            hv, hb, hex, hins, hpol, hcom] at h ⊢

/-- Selecting right after inserting `(u, o, l)` returns that row. -/
theorem select_after_insert (u : Int) (o : String) (l : AFAccessLevel)
    (db : List AFCollabMember) :
    select_collab_member u o (insert_collab_member u o l db) = .ok ⟨u, o, l⟩ := by
  simp [select_collab_member, insert_collab_member, memberMatches, List.find?]

/-- The policy store reflects `(u, o) ↦ l` right after `setAccessLevel`. -/
theorem policyLookup_after_update (u : Int) (o : String) (l : AFAccessLevel)
    (policy : List ((Int × String) × AFAccessLevel)) :
    policyLookup (update_access_level_policy u o l policy) u o = some l := by
  simp [policyLookup, update_access_level_policy, List.find?]

/-- The membership existence check succeeds right after an insert. -/
theorem exists_after_insert (u : Int) (o : String) (l : AFAccessLevel)
    (db : List AFCollabMember) :
    is_collab_member_exists u o (insert_collab_member u o l db) = true := by
  simp [is_collab_member_exists, insert_collab_member, memberMatches, List.any_cons]

/-- C8: a successful `create_collab_member` followed immediately by
`get_collab_member` on the same `(uid, object_id)` returns a membership
record equal to the inserted params — same uid, object id and access
level. -/
theorem create_then_get_returns_inserted_record
    (env : Env) (p : InsertCollabMemberParams) (w : World)
    (hok : (create_collab_member env p w).result = .ok ()) :
    get_collab_member ⟨p.uid, p.object_id⟩ (create_collab_member env p w).world =
      .ok ⟨p.uid, p.object_id, p.access_level⟩ := by
  obtain ⟨hv, _, hw⟩ := create_ok_inv env p w hok
  rw [hw]
  simp [get_collab_member, CollabMemberIdentify.validate, hv, select_after_insert]

/-- Witness for C8 at concrete inputs. -/
theorem create_then_get_returns_inserted_record_witness :
    get_collab_member ⟨sampleInsertParams.uid, sampleInsertParams.object_id⟩
        (create_collab_member envAllOk sampleInsertParams emptyWorld).world =
      .ok ⟨sampleInsertParams.uid, sampleInsertParams.object_id,
        sampleInsertParams.access_level⟩ :=
  create_then_get_returns_inserted_record envAllOk sampleInsertParams emptyWorld rfl

/-- C2: after a successful `create_collab_member`, a second call with the
same `(uid, object_id)` fails with `RecordAlreadyExists`, leaves the
world unchanged, performs no DB insert and no policy update, and both
the membership record and the policy entry still carry the first call's
access level. -/
theorem create_twice_yields_already_exists
    (env1 env2 : Env) (p1 p2 : InsertCollabMemberParams) (w : World)
    (huid : p2.uid = p1.uid) (hoid : p2.object_id = p1.object_id)
    (h1 : (create_collab_member env1 p1 w).result = .ok ())
    (hb : env2.beginOk = true) :
    (∃ m, (create_collab_member env2 p2 (create_collab_member env1 p1 w).world).result
        = .error (.RecordAlreadyExists m)) ∧
    (create_collab_member env2 p2 (create_collab_member env1 p1 w).world).world
        = (create_collab_member env1 p1 w).world ∧
    (∀ u o a, MemEvent.dbInsert u o a ∉
        (create_collab_member env2 p2 (create_collab_member env1 p1 w).world).trace) ∧
    (∀ u o a, MemEvent.policyUpdate u o a ∉
        (create_collab_member env2 p2 (create_collab_member env1 p1 w).world).trace) ∧
    select_collab_member p1.uid p1.object_id
        (create_collab_member env2 p2 (create_collab_member env1 p1 w).world).world.db
        = .ok ⟨p1.uid, p1.object_id, p1.access_level⟩ ∧
    policyLookup
        (create_collab_member env2 p2 (create_collab_member env1 p1 w).world).world.policy
        p1.uid p1.object_id = some p1.access_level := by
  obtain ⟨hv1, _, hw1⟩ := create_ok_inv env1 p1 w h1
  have hv2 : p2.object_id.isEmpty = false := by rw [hoid]; exact hv1
  rw [hw1]
  have hex2 : is_collab_member_exists p2.uid p2.object_id
      (insert_collab_member p1.uid p1.object_id p1.access_level w.db) = true := by
    rw [huid, hoid]
    exact exists_after_insert p1.uid p1.object_id p1.access_level w.db
  have h2 : create_collab_member env2 p2
      ⟨insert_collab_member p1.uid p1.object_id p1.access_level w.db,
       update_access_level_policy p1.uid p1.object_id p1.access_level w.policy⟩ =
      ⟨.error (.RecordAlreadyExists ("Collab member with uid " ++ toString p2.uid ++
          " and object_id " ++ p2.object_id ++ " already exists")),
       ⟨insert_collab_member p1.uid p1.object_id p1.access_level w.db,
        update_access_level_policy p1.uid p1.object_id p1.access_level w.policy⟩,
       [.txBegin, .dbExists p2.uid p2.object_id]⟩ := by
    simp [create_collab_member, InsertCollabMemberParams.validate, hv2, hb, hex2]
  rw [h2]
  refine ⟨⟨_, rfl⟩, rfl, by simp, by simp, ?_, ?_⟩
  · exact select_after_insert p1.uid p1.object_id p1.access_level w.db
  · exact policyLookup_after_update p1.uid p1.object_id p1.access_level w.policy

/-- Witness for C2 at concrete inputs. -/
theorem create_twice_yields_already_exists_witness :
    (∃ m, (create_collab_member envAllOk sampleInsertParams2
        (create_collab_member envAllOk sampleInsertParams emptyWorld).world).result
        = .error (.RecordAlreadyExists m)) ∧
    (create_collab_member envAllOk sampleInsertParams2
        (create_collab_member envAllOk sampleInsertParams emptyWorld).world).world
        = (create_collab_member envAllOk sampleInsertParams emptyWorld).world ∧
    (∀ u o a, MemEvent.dbInsert u o a ∉
        (create_collab_member envAllOk sampleInsertParams2
          (create_collab_member envAllOk sampleInsertParams emptyWorld).world).trace) ∧
    (∀ u o a, MemEvent.policyUpdate u o a ∉
        (create_collab_member envAllOk sampleInsertParams2
          (create_collab_member envAllOk sampleInsertParams emptyWorld).world).trace) ∧
    select_collab_member sampleInsertParams.uid sampleInsertParams.object_id
        (create_collab_member envAllOk sampleInsertParams2
          (create_collab_member envAllOk sampleInsertParams emptyWorld).world).world.db
        = .ok ⟨sampleInsertParams.uid, sampleInsertParams.object_id,
            sampleInsertParams.access_level⟩ ∧
    policyLookup
        (create_collab_member envAllOk sampleInsertParams2
          (create_collab_member envAllOk sampleInsertParams emptyWorld).world).world.policy
        sampleInsertParams.uid sampleInsertParams.object_id
        = some sampleInsertParams.access_level :=
  create_twice_yields_already_exists envAllOk envAllOk
    sampleInsertParams sampleInsertParams2 emptyWorld rfl rfl rfl rfl

/-- C4: every Member Access Manager operation validates its parameters
first: a validation failure returns `InvalidRequest` with an empty call
trace (no I/O was performed) and an unchanged world; and the
`RecordAlreadyExists` existence error of create is returned immediately
after the in-transaction existence check, with an unchanged world and a
trace holding only the begin and the existence check — no insert, no
policy update, no commit. -/
theorem member_ops_validation_short_circuits
    (env : Env) (w : World)
    (pi : InsertCollabMemberParams) (pu : UpdateCollabMemberParams)
    (pc : CollabMemberIdentify) (pq : QueryCollabMembers)
    (p2 : InsertCollabMemberParams)
    (hi : pi.object_id.isEmpty = true) (hu : pu.object_id.isEmpty = true)
    (hc : pc.object_id.isEmpty = true) (hq : pq.object_id.isEmpty = true)
    (h2v : p2.object_id.isEmpty = false)
    (h2e : is_collab_member_exists p2.uid p2.object_id w.db = true)
    (h2b : env.beginOk = true) :
    create_collab_member env pi w =
      ⟨.error (.InvalidRequest ("object_id is empty")), w, []⟩ ∧
    upsert_collab_member env pu w =
      ⟨.error (.InvalidRequest ("object_id is empty")), w, []⟩ ∧
    get_collab_member pc w = .error (.InvalidRequest ("object_id is empty")) ∧
    delete_collab_member env pc w =
      ⟨.error (.InvalidRequest ("object_id is empty")), w, []⟩ ∧
    get_collab_member_list pq w = .error (.InvalidRequest ("object_id is empty")) ∧
    create_collab_member env p2 w =
      ⟨.error (.RecordAlreadyExists ("Collab member with uid " ++ toString p2.uid ++
          " and object_id " ++ p2.object_id ++ " already exists")), w,
       [.txBegin, .dbExists p2.uid p2.object_id]⟩ := by
  refine ⟨?_, ?_, ?_, ?_, ?_, ?_⟩
  · simp [create_collab_member, InsertCollabMemberParams.validate, hi]
  · simp [upsert_collab_member, UpdateCollabMemberParams.validate, hu]
  · simp [get_collab_member, CollabMemberIdentify.validate, hc]
  · simp [delete_collab_member, CollabMemberIdentify.validate, hc]
  · simp [get_collab_member_list, QueryCollabMembers.validate, hq]
  · simp [create_collab_member, InsertCollabMemberParams.validate, h2v, h2b, h2e]

/-- Witness for C4 at concrete inputs. -/
theorem member_ops_validation_short_circuits_witness :
    create_collab_member envAllOk emptyInsertParams sampleWorld1 =
      ⟨.error (.InvalidRequest ("object_id is empty")), sampleWorld1, []⟩ ∧
    upsert_collab_member envAllOk emptyUpdateParams sampleWorld1 =
      ⟨.error (.InvalidRequest ("object_id is empty")), sampleWorld1, []⟩ ∧
    get_collab_member emptyIdentify sampleWorld1 =
      .error (.InvalidRequest ("object_id is empty")) ∧
    delete_collab_member envAllOk emptyIdentify sampleWorld1 =
      ⟨.error (.InvalidRequest ("object_id is empty")), sampleWorld1, []⟩ ∧
    get_collab_member_list emptyQueryMembers sampleWorld1 =
      .error (.InvalidRequest ("object_id is empty")) ∧
    create_collab_member envAllOk sampleInsertParams sampleWorld1 =
      ⟨.error (.RecordAlreadyExists ("Collab member with uid " ++
          toString sampleInsertParams.uid ++ " and object_id " ++
          sampleInsertParams.object_id ++ " already exists")), sampleWorld1,
       [.txBegin, .dbExists sampleInsertParams.uid sampleInsertParams.object_id]⟩ :=
  member_ops_validation_short_circuits envAllOk sampleWorld1
    emptyInsertParams emptyUpdateParams emptyIdentify emptyQueryMembers
    sampleInsertParams rfl rfl rfl rfl rfl rfl rfl

/-- C9: in `upsert_collab_member`, when the policy update has succeeded
but the DB insert or the commit then fails, the operation returns an
error, the committed membership table is unchanged, and the policy store
retains the new access level — the two stores diverge on that key. -/
theorem upsert_policy_survives_db_failure
    (env : Env) (p : UpdateCollabMemberParams) (w : World)
    (hv : p.object_id.isEmpty = false) (hb : env.beginOk = true)
    (hp : env.policyOk = true)
    (hfail : env.insertOk = false ∨ env.commitOk = false) :
    (∃ e, (upsert_collab_member env p w).result = .error e) ∧
    (upsert_collab_member env p w).world.db = w.db ∧
    policyLookup (upsert_collab_member env p w).world.policy p.uid p.object_id
      = some p.access_level := by
  rcases hfail with hins | hcom
  · simp [upsert_collab_member, UpdateCollabMemberParams.validate, hv, hb, hp, hins,
      policyLookup_after_update]
  · cases hins : env.insertOk <;>
      simp [upsert_collab_member, UpdateCollabMemberParams.validate, hv, hb, hp,
        hins, hcom, policyLookup_after_update]

/-- Witness for C9 at concrete inputs. -/
theorem upsert_policy_survives_db_failure_witness :
    (∃ e, (upsert_collab_member envInsertFail sampleUpdateParams emptyWorld).result
        = .error e) ∧
    (upsert_collab_member envInsertFail sampleUpdateParams emptyWorld).world.db
        = emptyWorld.db ∧
    policyLookup (upsert_collab_member envInsertFail sampleUpdateParams emptyWorld).world.policy
        sampleUpdateParams.uid sampleUpdateParams.object_id
        = some sampleUpdateParams.access_level :=
  upsert_policy_survives_db_failure envInsertFail sampleUpdateParams emptyWorld
    rfl rfl rfl (Or.inl rfl)

/-- C10: `upsert_collab_member` performs no existence check: no run of it
ever fails with `RecordAlreadyExists`, and with all external calls
succeeding it succeeds on any prior state — whether or not a record for
`(uid, object_id)` already exists — leaving a record with the new access
level in the table. -/
theorem upsert_never_fails_already_exists
    (env : Env) (p : UpdateCollabMemberParams) (w : World)
    (hv : p.object_id.isEmpty = false) (hb : env.beginOk = true)
    (hp : env.policyOk = true) (hi : env.insertOk = true)
    (hc : env.commitOk = true) :
    (∀ (envA : Env) (pA : UpdateCollabMemberParams) (wA : World) (m : String),
        (upsert_collab_member envA pA wA).result ≠ .error (.RecordAlreadyExists m)) ∧
    (upsert_collab_member env p w).result = .ok () ∧
    select_collab_member p.uid p.object_id (upsert_collab_member env p w).world.db
      = .ok ⟨p.uid, p.object_id, p.access_level⟩ := by
  refine ⟨?_, ?_⟩
  · intro envA pA wA m
    cases hvA : pA.object_id.isEmpty <;> cases hbA : envA.beginOk <;>
      cases hpA : envA.policyOk <;> cases hiA : envA.insertOk <;>
        cases hcA : envA.commitOk <;>
          simp [upsert_collab_member, UpdateCollabMemberParams.validate,
            hvA, hbA, hpA, hiA, hcA]
  · simp [upsert_collab_member, UpdateCollabMemberParams.validate, hv, hb, hp, hi, hc,
      select_after_insert]

/-- Witness for C10 at concrete inputs: the record for `(1, "o1")` already
exists in `sampleWorld1` and upsert still succeeds, replacing the level. -/
theorem upsert_never_fails_already_exists_witness :
    (∀ (envA : Env) (pA : UpdateCollabMemberParams) (wA : World) (m : String),
        (upsert_collab_member envA pA wA).result ≠ .error (.RecordAlreadyExists m)) ∧
    (upsert_collab_member envAllOk sampleUpdateParams sampleWorld1).result = .ok () ∧
    select_collab_member sampleUpdateParams.uid sampleUpdateParams.object_id
        (upsert_collab_member envAllOk sampleUpdateParams sampleWorld1).world.db
      = .ok ⟨sampleUpdateParams.uid, sampleUpdateParams.object_id,
          sampleUpdateParams.access_level⟩ :=
  upsert_never_fails_already_exists envAllOk sampleUpdateParams sampleWorld1
    rfl rfl rfl rfl rfl

/-- Unfolding of `maxDepth` at a node with at least one child. -/
theorem maxDepth_node_cons (i n : String) (c : Folder) (cs : List Folder) :
    maxDepth (.node i n (c :: cs)) = max (maxDepth c + 1) (maxDepth (.node i n cs)) := by
  simp [maxDepth]

/-- Truncating a folder tree to depth `d` yields a tree of maximum node
depth `min d (maxDepth f)`. -/
theorem maxDepth_folder_view (d : Nat) :
    ∀ f : Folder, maxDepth (collab_folder_to_folder_view f d) = min d (maxDepth f) := by
  induction d with
  | zero =>
    intro f
    cases f with
    | node i n cs => simp [collab_folder_to_folder_view, maxDepth]
  | succ d ih =>
    intro f
    cases f with
    | node i n cs =>
      have hview : collab_folder_to_folder_view (Folder.node i n cs) (d + 1) =
          Folder.node i n (cs.map (fun x => collab_folder_to_folder_view x d)) := rfl
      rw [hview]
      clear hview
      induction cs with
      | nil => simp [maxDepth]
      | cons c cs ihc =>
        rw [List.map_cons, maxDepth_node_cons, maxDepth_node_cons, ih c, ihc]
        omega

/-- C3: `get_user_workspace_structure` rejects every depth above 10 with
an `InvalidRequest` error and an empty call trace (no document fetch is
performed), and for depths within the limit it returns, whenever the
folder materializes as tree `t`, a view whose maximum node depth is
`min d (min 10 (maxDepth t))`. -/
theorem workspace_structure_depth_bound
    (env : DocEnv) (uid : Int) (ws : String) (d : Nat) :
    (d > 10 → get_user_workspace_structure env uid ws d =
      (.error (.InvalidRequest ("Depth " ++ toString d ++ " is too large (limit: " ++
        toString (10 : Nat) ++ ")")), [])) ∧
    (d ≤ 10 → ∀ t, (get_latest_collab_folder env uid ws).1 = .ok t →
      ∃ v, (get_user_workspace_structure env uid ws d).1 = .ok v ∧
        maxDepth v = min d (min 10 (maxDepth t))) := by
  constructor
  · intro hd
    simp [get_user_workspace_structure, hd]
  · intro hd t ht
    have hnd : ¬ d > 10 := by omega
    rcases hfold : get_latest_collab_folder env uid ws with ⟨r, tr⟩
    rw [hfold] at ht
    simp only at ht
    subst ht
    refine ⟨collab_folder_to_folder_view t d, ?_, ?_⟩
    · simp [get_user_workspace_structure, hnd, hfold]
    · rw [maxDepth_folder_view]
      omega

/-- Witness for C3 at concrete inputs: depth 11 is rejected without a
fetch, and depth 2 on the sample tree (actual depth 2) yields a view of
depth `min 2 (min 10 2) = 2`. -/
theorem workspace_structure_depth_bound_witness :
    get_user_workspace_structure docEnvOk 1 ("w1") 11 =
      (.error (.InvalidRequest ("Depth " ++ toString (11 : Nat) ++
        " is too large (limit: " ++ toString (10 : Nat) ++ ")")), []) ∧
    (∃ v, (get_user_workspace_structure docEnvOk 1 ("w1") 2).1 = .ok v ∧
      maxDepth v = min 2 (min 10 (maxDepth sampleFolder))) :=
  ⟨(workspace_structure_depth_bound docEnvOk 1 ("w1") 11).1 (by omega),
   (workspace_structure_depth_bound docEnvOk 1 ("w1") 2).2 (by omega) sampleFolder rfl⟩

/-- C6: when the fetched folder document fails to decode with diagnostic
`msg`, `get_latest_collab_folder` returns the materialization failure
`AppError.Unhandled msg` carrying that diagnostic — no folder tree is
returned. -/
theorem folder_decode_failure_carries_diagnostic
    (env : DocEnv) (uid : Int) (ws : String) (bytes : List Nat) (msg : String)
    (hfetch : env.getEncodeCollab (.User uid) ws ws .Folder true = .ok bytes)
    (hdec : env.fromCollabDocState uid .Server bytes ws [] = .error msg) :
    (get_latest_collab_folder env uid ws).1 = .error (.Unhandled msg) := by
  simp [get_latest_collab_folder, get_latest_collab_encoded, hfetch, hdec]

/-- Witness for C6 at concrete inputs. -/
theorem folder_decode_failure_carries_diagnostic_witness :
    (get_latest_collab_folder docEnvDecodeFail 1 ("w1")).1 =
      .error (.Unhandled ("decode failed")) :=
  folder_decode_failure_carries_diagnostic docEnvDecodeFail 1 ("w1") [1]
    ("decode failed") rfl rfl

/-- C7: `get_published_view` performs every document fetch with the
`GetCollabOrigin.Server` origin and every decode with uid 0 and
`CollabOrigin.Server` — never a specific end user's identity — and a
published view is returned only when every step (namespace resolution,
fetch, decode, published-id lookup, outline conversion) succeeded; in
particular a namespace-resolution failure propagates its error. -/
theorem published_view_server_origin_and_all_steps
    (env : DocEnv) (ns : String) :
    (∀ o ws oid ct, DocEvent.fetch o ws oid ct ∈ (get_published_view env ns).2 →
        o = GetCollabOrigin.Server) ∧
    (∀ u o oid, DocEvent.decode u o oid ∈ (get_published_view env ns).2 →
        u = 0 ∧ o = CollabOrigin.Server) ∧
    (∀ pv, (get_published_view env ns).1 = .ok pv →
        ∃ ws bytes folder ids,
          env.selectWorkspaceIdForPublishNamespace ns = .ok ws ∧
          env.getEncodeCollab .Server ws ws .Folder true = .ok bytes ∧
          env.fromCollabDocState 0 .Server bytes ws [] = .ok folder ∧
          env.selectPublishedViewIds ws = .ok ids ∧
          env.collabFolderToPublishedOutline folder ids = .ok pv) ∧
    (∀ e, env.selectWorkspaceIdForPublishNamespace ns = .error e →
        (get_published_view env ns).1 = .error e) := by
  rcases hr : env.selectWorkspaceIdForPublishNamespace ns with e | ws
  · refine ⟨?_, ?_, ?_, ?_⟩ <;> simp [get_published_view, hr]
  · rcases hf : env.getEncodeCollab .Server ws ws .Folder true with e | bytes
    · refine ⟨?_, ?_, ?_, ?_⟩ <;> simp [get_published_view, hr, hf] <;> try tauto
    · rcases hd : env.fromCollabDocState 0 .Server bytes ws [] with e | folder
      · refine ⟨?_, ?_, ?_, ?_⟩ <;> simp [get_published_view, hr, hf, hd] <;> try tauto
      · rcases hp : env.selectPublishedViewIds ws with e | ids
        · refine ⟨?_, ?_, ?_, ?_⟩ <;> simp [get_published_view, hr, hf, hd, hp] <;> try tauto
        · rcases ho : env.collabFolderToPublishedOutline folder ids with e | pv
          · refine ⟨?_, ?_, ?_, ?_⟩ <;>
              simp [get_published_view, hr, hf, hd, hp, ho] <;> try tauto
          · refine ⟨?_, ?_, ?_, ?_⟩
            · simp [get_published_view, hr, hf, hd, hp, ho]
              tauto
            · simp [get_published_view, hr, hf, hd, hp, ho]
              tauto
            · intro x hxx
              simp [get_published_view, hr, hf, hd, hp, ho] at hxx
              subst hxx
              exact ⟨ws, bytes, folder, ids, rfl, hf, hd, hp, ho⟩
            · intro e2 he
              exact absurd he (by simp)

/-- Witness for C7 at concrete inputs. -/
theorem published_view_server_origin_and_all_steps_witness :
    (∀ o ws oid ct, DocEvent.fetch o ws oid ct ∈ (get_published_view docEnvOk ("ns")).2 →
        o = GetCollabOrigin.Server) ∧
    (∀ u o oid, DocEvent.decode u o oid ∈ (get_published_view docEnvOk ("ns")).2 →
        u = 0 ∧ o = CollabOrigin.Server) ∧
    (∀ pv, (get_published_view docEnvOk ("ns")).1 = .ok pv →
        ∃ ws bytes folder ids,
          docEnvOk.selectWorkspaceIdForPublishNamespace ("ns") = .ok ws ∧
          docEnvOk.getEncodeCollab .Server ws ws .Folder true = .ok bytes ∧
          docEnvOk.fromCollabDocState 0 .Server bytes ws [] = .ok folder ∧
          docEnvOk.selectPublishedViewIds ws = .ok ids ∧
          docEnvOk.collabFolderToPublishedOutline folder ids = .ok pv) ∧
    (∀ e, docEnvOk.selectWorkspaceIdForPublishNamespace ("ns") = .error e →
        (get_published_view docEnvOk ("ns")).1 = .error e) :=
  published_view_server_origin_and_all_steps docEnvOk ("ns")

end AppFlowySpec
